import Mathlib

/-!
FileSaver: a shallow embedding of `include/FileSaver.h`.

The development embeds `BackblazeCredentials` (session, service calls) and `FileSaver`
(snapshot, upload, scheduler) as pure functions over explicit state.

Conventions of the embedding.

* Text is a Lean `String`; the text handled is taken to be free of embedded NUL characters, so
  that the `std::string` and the C-string view of a value coincide.
* The libraries the header calls (rapidjson, libcurl, OpenSSL, the clock, the file system) are
  not part of the header.  Their results are supplied by an environment `Env`.
* rapidjson accessors have preconditions (`HasMember` and `operator[]` require `IsObject()`,
  `GetString` requires `IsString()`), checked by `RAPIDJSON_ASSERT`.  A call outside its
  precondition does not return a value: it is modelled as `Except.error` with the `Fault`
  naming the violated assertion.
* Every function returns, besides its C++ result and the updated object, the list of
  observable `Event`s it performed, in order.
* The file system maps paths to nodes (regular files with content and write permission,
  directories).  `std::filesystem::exists` and `std::filesystem::copy` throw as the library
  does: on a status error, on a target that is read-only or not a regular file, on a refusal
  by the operating system; the text of `what()` is taken from the environment.
* The two threads are not interleaved: each function is embedded as one sequential run, and
  `saveFile` takes a bound on the number of evaluations of its loop condition.
-/

namespace FileSaverModel

/-! ## JSON values as seen through rapidjson -/

/-- A parsed JSON value (`rapidjson::Value`).  Object members are kept in document order. -/
inductive Json where
  | null : Json
  | bool (b : Bool) : Json
  | num (n : Int) : Json
  | str (s : String) : Json
  | arr (items : List Json) : Json
  | obj (members : List (String × Json)) : Json

/-- A violated rapidjson precondition (`RAPIDJSON_ASSERT`). -/
inductive Fault where
  /-- The assertion `IsObject()` in `FindMember`, reached from `HasMember` and `operator[]`. -/
  | assertIsObject : Fault
  /-- The assertion `IsString()` in `GetString`. -/
  | assertIsString : Fault
  /-- The assertion in `operator[]` for a name that is not a member of the object. -/
  | assertNoMember : Fault
  deriving DecidableEq, Repr

/-- The method `Value::IsObject()`. -/
def Json.IsObject : Json → Bool
  | .obj _ => true
  | _ => false

/-- The method `Value::IsString()`. -/
def Json.IsString : Json → Bool
  | .str _ => true
  | _ => false

/-- The method `Value::HasMember(name)`: linear search for the first member called `name`;
asserts `IsObject()`. -/
def Json.HasMember (v : Json) (name : String) : Except Fault Bool :=
  match v with
  | .obj members => .ok (List.lookup name members).isSome
  | _ => .error Fault.assertIsObject

/-- The method `Value::operator[](name)`: the first member called `name`; asserts `IsObject()`
and that the member exists. -/
def Json.member (v : Json) (name : String) : Except Fault Json :=
  match v with
  | .obj members =>
    match List.lookup name members with
    | some x => .ok x
    | none => .error Fault.assertNoMember
  | _ => .error Fault.assertIsObject

/-- The method `Value::GetString()`; asserts `IsString()`. -/
def Json.GetString : Json → Except Fault String
  | .str s => .ok s
  | _ => .error Fault.assertIsString

/-- The expression `v[name].GetString()`. -/
def Json.memberString (v : Json) (name : String) : Except Fault String :=
  match v.member name with
  | .ok x => x.GetString
  | .error f => .error f

/-- A `rapidjson::Document` after `Parse`: on a parse error the value stays `null` and
`HasParseError()` is set. -/
structure Document where
  value : Json
  HasParseError : Bool

/-! ## The environment -/

/-- One HTTP request handed to `curl_easy_perform`. -/
structure Request where
  url : String
  headers : List String
  /-- The request body: `none` for a GET, `some body` for a POST. -/
  post : Option String
  deriving DecidableEq, Repr

/-- What `curl_easy_perform` and `CURLINFO_RESPONSE_CODE` deliver. -/
structure Reply where
  /-- The `CURLcode`; `0` is `CURLE_OK`. -/
  res : Nat
  http_code : Nat
  /-- The text collected by the write callback. -/
  response : String
  deriving DecidableEq, Repr

/-- The value `CURLE_OK`. -/
def CURLE_OK : Nat := 0

/-- Broken-down local time (`std::tm`), with the calendar year and the month counted from 1. -/
structure Tm where
  year : Nat
  mon : Nat
  mday : Nat
  hour : Nat
  min : Nat
  sec : Nat
  deriving DecidableEq, Repr

/-- The reason for which a file-system call throws `std::filesystem::filesystem_error`. -/
inductive Refusal where
  /-- The status of the path cannot be read (name too long, search permission denied). -/
  | status (path : String) : Refusal
  /-- The source of a copy does not exist. -/
  | missing (src : String) : Refusal
  /-- Source and target are the same file. -/
  | same_file (src : String) (dst : String) : Refusal
  /-- The source is a directory and the target a regular file. -/
  | directory_onto_file (src : String) (dst : String) : Refusal
  /-- The target exists and is not a regular file. -/
  | not_regular (dst : String) : Refusal
  /-- The target is a regular file without write permission. -/
  | read_only (dst : String) : Refusal
  /-- The operating system refuses the copy for another reason (no space, I/O error, an
  unreadable source, a parent directory that cannot be written). -/
  | os (src : String) (dst : String) : Refusal
  deriving DecidableEq, Repr

/-- Results of the library calls made by the header. -/
structure Env where
  /-- The call `rapidjson::Document::Parse`: `none` on a parse error. -/
  Parse : String → Option Json
  /-- The serialisation `rapidjson::Writer` of a document. -/
  Write : Json → String
  /-- The OpenSSL base64 filter used by `base64Encode`. -/
  base64 : String → String
  /-- The call `curl_easy_perform`, followed by reading the response code. -/
  curl_easy_perform : Request → Reply
  /-- The call `curl_easy_strerror`. -/
  curl_easy_strerror : Nat → String
  /-- Whether `curl_easy_init()` in `uploadFile` yields a handle. -/
  curl_easy_init : Bool
  /-- The SHA-1 digest of a byte string, in hexadecimal. -/
  sha1hex : String → String
  /-- The local time observed at the n-th reading of the clock. -/
  localtime : Nat → Tm
  /-- The method `std::filesystem::path::parent_path`. -/
  parent_path : String → String
  /-- The method `std::filesystem::path::stem`. -/
  stem : String → String
  /-- The method `std::filesystem::path::extension`. -/
  extension : String → String
  /-- The method `std::filesystem::path::filename`. -/
  filename : String → String
  /-- The operator `/` of `std::filesystem::path`. -/
  join : String → String → String
  /-- The text of `filesystem_error::what()` for a refusal. -/
  what : Refusal → String

/-- The statements `Document doc; doc.Parse(text)`. -/
def Env.parseDocument (env : Env) (text : String) : Document :=
  match env.Parse text with
  | some v => { value := v, HasParseError := false }
  | none => { value := Json.null, HasParseError := true }

/-- An observable action of the program. -/
inductive Event where
  /-- An HTTP transfer was performed. -/
  | call (r : Request) : Event
  /-- The loop condition `m_isSaving` of `saveFile` was evaluated. -/
  | check : Event
  /-- The call `std::this_thread::sleep_for` with a number of milliseconds. -/
  | sleep (ms : Nat) : Event
  /-- A `std::thread` running `saveFile` was created. -/
  | spawn : Event
  /-- The call `std::thread::detach`. -/
  | detach : Event
  /-- The call `std::thread::join`. -/
  | join : Event
  deriving DecidableEq, Repr

/-! ## `BackblazeCredentials` -/

/-- The struct `UploadAuthorization`. -/
structure UploadAuthorization where
  uploadUrl : String := ""
  authorizationToken : String := ""
  deriving DecidableEq, Repr

/-- The struct `BackblazeCredentials`; `curl` records whether the handle is non-null. -/
structure BackblazeCredentials where
  accountId : String := ""
  applicationKey : String := ""
  bucketId : String := ""
  bucketName : String := ""
  authToken : String := ""
  apiUrl : String := ""
  downloadUrl : String := ""
  isAuthenticated : Bool := false
  curl : Bool := true
  deriving DecidableEq, Repr

namespace BackblazeCredentials

/-- The function `BackblazeCredentials::b2ApiCall`: the response text (empty on any failure) and
the transfers performed. -/
def b2ApiCall (env : Env) (s : BackblazeCredentials) (endpoint : String)
    (postData : String) (customAuthToken : String) : String × List Event :=
  if !s.curl then ("", [])
  else
    let url :=
      if endpoint = "b2_authorize_account" then
        "https://api.backblazeb2.com/b2api/v2/" ++ endpoint
      else if s.apiUrl = "" then
        "https://api.backblazeb2.com/b2api/v2/" ++ endpoint
      else
        s.apiUrl ++ "/b2api/v2/" ++ endpoint
    let authHeader :=
      "Authorization: " ++ (if customAuthToken = "" then s.authToken else customAuthToken)
    let request : Request :=
      if postData ≠ "" then
        { url := url, headers := [authHeader, "Content-Type: application/json"],
          post := some postData }
      else
        { url := url, headers := [authHeader], post := none }
    let reply := env.curl_easy_perform request
    if reply.res ≠ CURLE_OK then ("", [Event.call request])
    else if reply.http_code ≠ 200 then ("", [Event.call request])
    else (reply.response, [Event.call request])

/-- The function `BackblazeCredentials::base64Encode`. -/
def base64Encode (env : Env) (input : String) : String := env.base64 input

/-- The object part of `authenticate` after the error and parse checks: the fields are taken
from the document `v` where present. -/
def extractFields (v : Json) (s : BackblazeCredentials) : Except Fault BackblazeCredentials := do
  let s1 ← (do
    if (← v.HasMember "authorizationToken") then
      pure { s with authToken := (← v.memberString "authorizationToken") }
    else pure s)
  let s2 ← (do
    if (← v.HasMember "apiUrl") then
      pure { s1 with apiUrl := (← v.memberString "apiUrl") }
    else pure s1)
  let s3 ← (do
    if (← v.HasMember "downloadUrl") then
      pure { s2 with downloadUrl := (← v.memberString "downloadUrl") }
    else pure s2)
  let hasAllowed ← (do
    if (← v.HasMember "allowed") then pure (← v.member "allowed").IsObject else pure false)
  if hasAllowed then
    let allowed ← v.member "allowed"
    let idIsString ← (do
      if (← allowed.HasMember "bucketId") then pure (← allowed.member "bucketId").IsString
      else pure false)
    let s4 ← (do
      if idIsString then pure { s3 with bucketId := (← allowed.memberString "bucketId") }
      else pure s3)
    let nameIsString ← (do
      if (← allowed.HasMember "bucketName") then pure (← allowed.member "bucketName").IsString
      else pure false)
    if nameIsString then pure { s4 with bucketName := (← allowed.memberString "bucketName") }
    else pure s4
  else pure s3

/-- The function `BackblazeCredentials::authenticate`: the returned flag, the session after the
call and the transfers performed. -/
def authenticate (env : Env) (s : BackblazeCredentials) :
    Except Fault (Bool × BackblazeCredentials × List Event) :=
  let credentials := s.accountId ++ ":" ++ s.applicationKey
  let authHeader := "Basic " ++ base64Encode env credentials
  let (response, calls) := b2ApiCall env s "b2_authorize_account" "" authHeader
  if response = "" then .ok (false, s, calls)
  else
    let doc := env.parseDocument response
    do
      let errorShaped ← (do
        if (← doc.value.HasMember "code") then doc.value.HasMember "message" else pure false)
      if errorShaped then
        let _errorCode ← doc.value.memberString "code"
        let _errorMessage ← doc.value.memberString "message"
        pure (false, s, calls)
      else if doc.HasParseError || !doc.value.IsObject then
        pure (false, s, calls)
      else
        let s4 ← extractFields doc.value s
        pure (true, { s4 with isAuthenticated := true }, calls)

/-- The function `BackblazeCredentials::createBucket`. -/
def createBucket (env : Env) (s : BackblazeCredentials) (bucketName : String) :
    Except Fault (Bool × BackblazeCredentials × List Event) :=
  if !s.isAuthenticated then .ok (false, s, [])
  else if s.bucketId ≠ "" then .ok (true, { s with bucketName := bucketName }, [])
  else
    let doc := Json.obj [("bucketName", Json.str bucketName), ("bucketType", Json.str "allPrivate")]
    let (response, calls) := b2ApiCall env s "b2_create_bucket" (env.Write doc) ""
    if response = "" then .ok (false, s, calls)
    else
      let responseDoc := env.parseDocument response
      do
        let failed ← (do
          if responseDoc.HasParseError then pure true
          else if !responseDoc.value.IsObject then pure true
          else responseDoc.value.HasMember "error")
        if failed then pure (false, s, calls)
        else if (← responseDoc.value.HasMember "bucketId") then
          let id ← responseDoc.value.memberString "bucketId"
          pure (true, { s with bucketId := id, bucketName := bucketName }, calls)
        else pure (false, s, calls)

/-- The function `BackblazeCredentials::getUploadUrl`. -/
def getUploadUrl (env : Env) (s : BackblazeCredentials) :
    Except Fault (UploadAuthorization × BackblazeCredentials × List Event) :=
  let result : UploadAuthorization := {}
  if !s.isAuthenticated then .ok ({}, s, [])
  else if s.bucketId = "" then .ok ({}, s, [])
  else
    let doc := Json.obj [("bucketId", Json.str s.bucketId)]
    let (response, calls) := b2ApiCall env s "b2_get_upload_url" (env.Write doc) ""
    if response = "" then .ok ({}, s, calls)
    else
      let responseDoc := env.parseDocument response
      if responseDoc.HasParseError then .ok ({}, s, calls)
      else if !responseDoc.value.IsObject then .ok ({}, s, calls)
      else do
        let errorShaped ← (do
          if (← responseDoc.value.HasMember "code") then responseDoc.value.HasMember "message"
          else pure false)
        if errorShaped then
          let _errorCode ← responseDoc.value.memberString "code"
          let _errorMessage ← responseDoc.value.memberString "message"
          pure ({}, s, calls)
        else
          let complete ← (do
            if (← responseDoc.value.HasMember "uploadUrl") then
              responseDoc.value.HasMember "authorizationToken"
            else pure false)
          if complete then
            let uploadUrl ← responseDoc.value.memberString "uploadUrl"
            let authorizationToken ← responseDoc.value.memberString "authorizationToken"
            pure ({ result with uploadUrl := uploadUrl, authorizationToken := authorizationToken },
              s, calls)
          else pure (result, s, calls)

end BackblazeCredentials

/-! ## `FileSaver` -/

/-- What a path names on disk. -/
inductive Node where
  /-- A regular file: its content, and whether the process may write to it. -/
  | regular (content : String) (writable : Bool) : Node
  /-- A directory. -/
  | directory : Node
  deriving DecidableEq, Repr

/-- The part of the machine outside the object: the nodes on disk, the paths whose status
cannot be read, the copies the operating system refuses for reasons of its own, and the number
of clock readings made so far. -/
structure World where
  nodes : String → Option Node
  status_fails : String → Bool
  os_refuses : String → String → Bool
  clock : Nat

/-- The content of the regular file at a path, if there is one. -/
def World.files (w : World) (path : String) : Option String :=
  match w.nodes path with
  | some (Node.regular content _) => some content
  | _ => none

/-- The call `std::filesystem::exists(path)`: it throws when the status cannot be read. -/
def World.fs_exists (env : Env) (w : World) (path : String) : Except String Bool :=
  if w.status_fails path then .error (env.what (Refusal.status path))
  else .ok (w.nodes path).isSome

/-- The disk after a regular file has been written at a path. -/
def World.write (w : World) (path : String) (content : String) (writable : Bool) : World :=
  { w with nodes := fun p => if p = path then some (Node.regular content writable) else w.nodes p }

/-- The call `std::filesystem::copy_file(from, to, copy_options::overwrite_existing)` for a
regular source with the given content and permission: the target receives both. -/
def World.copy_file (env : Env) (w : World) (src : String) (dst : String) (content : String)
    (writable : Bool) : Except String World :=
  if w.status_fails dst then .error (env.what (Refusal.status dst))
  else if src = dst then .error (env.what (Refusal.same_file src dst))
  else
    match w.nodes dst with
    | some Node.directory => .error (env.what (Refusal.not_regular dst))
    | some (Node.regular _ false) => .error (env.what (Refusal.read_only dst))
    | _ =>
      if w.os_refuses src dst then .error (env.what (Refusal.os src dst))
      else .ok (w.write dst content writable)

/-- The call `std::filesystem::copy(from, to, copy_options::overwrite_existing)`: a regular
source is copied with `copy_file`, into the target when that is a directory; a directory source
has no effect under these options. -/
def World.copy (env : Env) (w : World) (src : String) (dst : String) : Except String World :=
  if w.status_fails src then .error (env.what (Refusal.status src))
  else if w.status_fails dst then .error (env.what (Refusal.status dst))
  else
    match w.nodes src with
    | none => .error (env.what (Refusal.missing src))
    | some Node.directory =>
      if src = dst then .error (env.what (Refusal.same_file src dst))
      else
        match w.nodes dst with
        | some (Node.regular _ _) => .error (env.what (Refusal.directory_onto_file src dst))
        | _ => .ok w
    | some (Node.regular content writable) =>
      match w.nodes dst with
      | some Node.directory =>
        w.copy_file env src (env.join dst (env.filename src)) content writable
      | _ => w.copy_file env src dst content writable

/-- A `std::thread` object; `joinable` is what `std::thread::joinable()` returns. -/
structure Thread where
  joinable : Bool
  deriving DecidableEq, Repr

/-- The class `FileSaver`; `m_fileSaver` is `none` for a null `unique_ptr`.  The float
`m_saveInterval` is held as a whole number of seconds, for which the product with 1000 and the
conversion to `int` are exact over the range of the slider (10 to 600); fractional values and
values beyond the range of `int` are not represented. -/
structure FileSaver where
  m_isFilePathSet : Bool := false
  m_b2Credentials : BackblazeCredentials := {}
  m_filePath : String := ""
  m_fileContent : String := ""
  m_fileSaver : Option Thread := none
  m_logger : String := ""
  m_saveInterval : Nat := 300
  m_isSaving : Bool := false
  deriving DecidableEq, Repr

/-- Two decimal digits, as printed by `%m`, `%d`, `%H`, `%M`, `%S`. -/
def pad2 (n : Nat) : String := if n < 10 then "0" ++ toString n else toString n

/-- The output of `std::put_time(tm, "%Y%m%d_%H%M%S")`. -/
def put_time (tm : Tm) : String :=
  toString tm.year ++ pad2 tm.mon ++ pad2 tm.mday ++ "_" ++ pad2 tm.hour ++ pad2 tm.min ++
    pad2 tm.sec

namespace FileSaver

/-- The function `FileSaver::calculateFileSha1`: the empty string when the file cannot be
opened. -/
def calculateFileSha1 (env : Env) (w : World) (filepath : String) : String :=
  match w.files filepath with
  | none => ""
  | some content => env.sha1hex content

/-- The function `FileSaver::makeLocalCopy`; `Except.error` carries the message of the exception
thrown (its own `std::runtime_error`, or the `filesystem_error` of `exists` or `copy`) and the
disk as it is at the throw; the object is unchanged then. -/
def makeLocalCopy (env : Env) (self : FileSaver) (w : World) :
    Except (String × World) (FileSaver × World) :=
  match w.fs_exists env self.m_filePath with
  | .error what => .error (what, w)
  | .ok false => .error ("File does not exist: " ++ self.m_filePath, w)
  | .ok true =>
    let tm := env.localtime w.clock
    let w1 := { w with clock := w.clock + 1 }
    let timestamp := put_time tm
    let localCopyPath := env.join (env.parent_path self.m_filePath)
      (env.stem self.m_filePath ++ "_backup_" ++ timestamp ++ env.extension self.m_filePath)
    match w1.copy env self.m_filePath localCopyPath with
    | .error what => .error (what, w1)
    | .ok w2 =>
      .ok ({ self with
              m_logger := self.m_logger ++ ("Local copy created: " ++ localCopyPath ++ "\n") },
        w2)

/-- The transfer set up in `uploadFile`: a POST of the file content to the upload URL, with the
five headers appended there. -/
def uploadRequest (uploadAuth : UploadAuthorization) (remoteFileName : String)
    (fileSha1 : String) (fileSize : Nat) (content : String) : Request :=
  { url := uploadAuth.uploadUrl,
    headers := ["Authorization: " ++ uploadAuth.authorizationToken,
      "X-Bz-File-Name: " ++ remoteFileName,
      "X-Bz-Content-Sha1: " ++ fileSha1,
      "Content-Type: application/octet-stream",
      "Content-Length: " ++ toString fileSize],
    post := some content }

/-- The function `FileSaver::uploadFile`. -/
def uploadFile (env : Env) (self : FileSaver) (w : World) :
    Except Fault (Bool × FileSaver × World × List Event) := do
  let (authed, cred1, t1) ← (do
    if !self.m_b2Credentials.isAuthenticated then
      let (ok, c, t) ← self.m_b2Credentials.authenticate env
      pure (ok, c, t)
    else pure (true, self.m_b2Credentials, []))
  let self1 := { self with m_b2Credentials := cred1 }
  if !authed then
    pure (false, { self1 with m_logger := self1.m_logger ++ "Authentication failed\n" }, w, t1)
  else if self1.m_b2Credentials.bucketId = "" then
    pure (false, { self1 with m_logger := self1.m_logger ++ "No bucket available\n" }, w, t1)
  else
    let (uploadAuth, cred2, t2) ← self1.m_b2Credentials.getUploadUrl env
    let self2 := { self1 with m_b2Credentials := cred2 }
    if uploadAuth.uploadUrl = "" || uploadAuth.authorizationToken = "" then
      pure (false,
        { self2 with m_logger := self2.m_logger ++ "Failed to get upload authorization\n" },
        w, t1 ++ t2)
    else
      let fileSha1 := calculateFileSha1 env w self2.m_filePath
      if !env.curl_easy_init then
        pure (false, { self2 with m_logger := self2.m_logger ++ "Failed to initialize cURL\n" },
          w, t1 ++ t2)
      else
        match w.files self2.m_filePath with
        | none =>
          pure (false,
            { self2 with
              m_logger := self2.m_logger ++ ("Cannot open file: " ++ self2.m_filePath ++ "\n") },
            w, t1 ++ t2)
        | some content =>
          let fileSize := content.utf8ByteSize
          let tm := env.localtime w.clock
          let w1 := { w with clock := w.clock + 1 }
          let remoteFileName := put_time tm ++ "_" ++ env.filename self2.m_filePath
          let request := uploadRequest uploadAuth remoteFileName fileSha1 fileSize content
          let reply := env.curl_easy_perform request
          let t3 := t1 ++ t2 ++ [Event.call request]
          if reply.res ≠ CURLE_OK then
            pure (false,
              { self2 with
                m_logger := self2.m_logger ++
                  ("Upload failed: " ++ env.curl_easy_strerror reply.res ++ "\n") },
              w1, t3)
          else
            let doc := env.parseDocument reply.response
            let accepted ← (do
              if !doc.HasParseError && doc.value.IsObject then doc.value.HasMember "fileId"
              else pure false)
            if accepted then
              pure (true,
                { self2 with
                  m_logger := self2.m_logger ++
                    ("File uploaded successfully: " ++ remoteFileName ++ "\n") },
                w1, t3)
            else
              pure (false,
                { self2 with
                  m_logger := self2.m_logger ++
                    ("Upload failed. Response: " ++ reply.response ++ "\n") },
                w1, t3)

/-- One pass through the body of the `while` loop of `FileSaver::saveFile`. -/
def saveFileStep (env : Env) (self : FileSaver) (w : World) :
    Except Fault (FileSaver × World × List Event) :=
  if !self.m_isFilePathSet then
    -- `continue`: control goes back to the loop condition
    .ok ({ self with m_logger := self.m_logger ++ "File path not set\n" }, w, [])
  else
    match makeLocalCopy env self w with
    | .error (what, w1) =>
      let self1 := { self with m_logger := self.m_logger ++ ("Error: " ++ what ++ "\n") }
      .ok (self1, w1, [Event.sleep (self1.m_saveInterval * 1000)])
    | .ok (self1, w1) =>
      match uploadFile env self1 w1 with
      | .error f => .error f
      | .ok (true, self2, w2, t) =>
        let self3 := { self2 with m_logger := self2.m_logger ++ "Backup completed successfully\n" }
        .ok (self3, w2, t ++ [Event.sleep (self3.m_saveInterval * 1000)])
      | .ok (false, self2, w2, t) =>
        let self3 := { self2 with m_logger := self2.m_logger ++ "Backup failed\n" }
        .ok (self3, w2, t ++ [Event.sleep (self3.m_saveInterval * 1000)])

/-- The function `FileSaver::saveFile`, run for at most `fuel` evaluations of the loop
condition. -/
def saveFile (env : Env) : Nat → FileSaver → World → Except Fault (FileSaver × World × List Event)
  | 0, self, w => .ok (self, w, [])
  | fuel + 1, self, w =>
    if !self.m_isSaving then .ok (self, w, [Event.check])
    else
      match saveFileStep env self w with
      | .error f => .error f
      | .ok (self1, w1, t1) =>
        match saveFile env fuel self1 w1 with
        | .error f => .error f
        | .ok (self2, w2, t2) => .ok (self2, w2, Event.check :: (t1 ++ t2))

/-- The function `FileSaver::setSaveFileThread`. -/
def setSaveFileThread (self : FileSaver) (set : Bool) : FileSaver × List Event :=
  if set && !self.m_isSaving then
    let self1 := { self with m_isSaving := true }
    let self2 := { self1 with m_fileSaver := some { joinable := true } }
    let self3 := { self2 with m_fileSaver := some { joinable := false } }
    (self3, [Event.spawn, Event.detach])
  else if !set && self.m_isSaving then
    let self1 := { self with m_isSaving := false }
    let joined :=
      match self1.m_fileSaver with
      | some thread => thread.joinable
      | none => false
    ({ self1 with m_fileSaver := none }, if joined then [Event.join] else [])
  else (self, [])

end FileSaver

/-! ## Auxiliary definitions used in the statements -/

open BackblazeCredentials FileSaver

/-- The string value of the first member called `name`, when that member is a string. -/
def stringMember (members : List (String × Json)) (name : String) : Option String :=
  match List.lookup name members with
  | some (Json.str v) => some v
  | _ => none

/-- The response text `authenticate` obtains from its call of `b2ApiCall`. -/
def authorizeResponse (env : Env) (s : BackblazeCredentials) : String :=
  (b2ApiCall env s "b2_authorize_account" ""
    ("Basic " ++ base64Encode env (s.accountId ++ ":" ++ s.applicationKey))).1

/-- A writer for objects whose members are strings (the two request bodies the header builds);
no escaping is done. -/
def flatWriter : Json → String
  | Json.obj members =>
    "\x7b" ++ ",".intercalate (members.map (fun kv =>
      "\"" ++ kv.1 ++ "\":" ++
        (match kv.2 with
        | Json.str v => "\"" ++ v ++ "\""
        | _ => "null"))) ++ "\x7d"
  | _ => "null"

/-- A text for each refusal, in the manner of the messages of `filesystem_error`. -/
def stubWhat : Refusal → String
  | Refusal.status path => "filesystem error: status: File name too long [" ++ path ++ "]"
  | Refusal.missing src => "filesystem error: cannot copy: No such file or directory [" ++ src ++ "]"
  | Refusal.same_file src _ => "filesystem error: cannot copy: File exists [" ++ src ++ "]"
  | Refusal.directory_onto_file src _ => "filesystem error: cannot copy: Is a directory [" ++ src ++ "]"
  | Refusal.not_regular dst => "filesystem error: cannot copy file: File exists [" ++ dst ++ "]"
  | Refusal.read_only dst => "filesystem error: cannot copy file: Permission denied [" ++ dst ++ "]"
  | Refusal.os _ dst => "filesystem error: cannot copy file: Input/output error [" ++ dst ++ "]"

/-- A test double for the libraries: `table` lists the texts that parse, with their documents,
and `net` answers the HTTP requests. -/
def stubEnv (table : List (String × Json)) (net : Request → Reply) : Env where
  Parse := fun t => List.lookup t table
  Write := flatWriter
  base64 := fun t => t
  curl_easy_perform := net
  curl_easy_strerror := fun _ => "transfer error"
  curl_easy_init := true
  sha1hex := fun _ => "da39a3ee"
  localtime := fun _ => { year := 2024, mon := 1, mday := 2, hour := 3, min := 4, sec := 5 }
  parent_path := fun _ => "/data"
  stem := fun _ => "notes"
  extension := fun _ => ".txt"
  filename := fun _ => "notes.txt"
  join := fun d n => d ++ "/" ++ n
  what := stubWhat

/-- A completed transfer with status 200 and the given response text. -/
def okReply (text : String) : Reply := { res := CURLE_OK, http_code := 200, response := text }

/-- The authorize response of scenario 1 of the specification. -/
def scenario1Text : String :=
  "\x7b\"authorizationToken\":\"tok\",\"apiUrl\":\"https://api.example\"," ++
    "\"allowed\":\x7b\"bucketId\":\"b1\",\"bucketName\":\"biz\"\x7d\x7d"

/-- The document of `scenario1Text`. -/
def scenario1Members : List (String × Json) :=
  [("authorizationToken", Json.str "tok"), ("apiUrl", Json.str "https://api.example"),
    ("allowed", Json.obj [("bucketId", Json.str "b1"), ("bucketName", Json.str "biz")])]

/-- A service that answers every request with status 200 and the text of scenario 1. -/
def scenario1Env : Env :=
  stubEnv [(scenario1Text, Json.obj scenario1Members)]
    (fun _ => okReply scenario1Text)

/-- A service that answers every request with status 200 and the given text and document. -/
def constEnv (text : String) (doc : Json) : Env :=
  stubEnv [(text, doc)] (fun _ => okReply text)

/-- The remote object name `uploadFile` derives at clock reading `n`. -/
def remoteName (env : Env) (path : String) (n : Nat) : String :=
  put_time (env.localtime n) ++ "_" ++ env.filename path

/-- Whether the member called `name` is present and a string. -/
def isStringMember (members : List (String × Json)) (name : String) : Bool :=
  (stringMember members name).isSome

/-- A disk holding one writable regular file, on which no call is refused. -/
def diskWith (path : String) (content : String) : World where
  nodes := fun p => if p = path then some (Node.regular content true) else none
  status_fails := fun _ => false
  os_refuses := fun _ _ => false
  clock := 0

/-- An authenticated session with a known bucket. -/
def readySession : BackblazeCredentials where
  isAuthenticated := true
  bucketId := "b1"
  authToken := "tok"
  apiUrl := "https://api.example"

/-- A `FileSaver` with a target set, an authenticated session and a known bucket. -/
def readySaver : FileSaver where
  m_isFilePathSet := true
  m_filePath := "/data/notes.txt"
  m_isSaving := true
  m_b2Credentials := readySession

/-- The text of a well-formed answer of the get-upload-url endpoint. -/
def uploadUrlText : String :=
  "\x7b\"uploadUrl\":\"https://pod.example/upload\",\"authorizationToken\":\"up-tok\"\x7d"

/-- The document of `uploadUrlText`. -/
def uploadUrlMembers : List (String × Json) :=
  [("uploadUrl", Json.str "https://pod.example/upload"),
    ("authorizationToken", Json.str "up-tok")]

/-- A service whose get-upload-url endpoint answers `uploadUrlText` with status 200 and whose
upload endpoint answers with the given status and text. -/
def uploadEnv (status : Nat) (text : String) (doc : Json) : Env :=
  stubEnv [(uploadUrlText, Json.obj uploadUrlMembers), (text, doc)]
    (fun r =>
      if r.url = "https://pod.example/upload" then Reply.mk CURLE_OK status text
      else okReply uploadUrlText)

/-- The document `createBucket` sends for a bucket name. -/
def createBucketBody (bucketName : String) : Json :=
  Json.obj [("bucketName", Json.str bucketName), ("bucketType", Json.str "allPrivate")]

/-- The response text `createBucket` obtains from its call of `b2ApiCall`. -/
def createBucketResponse (env : Env) (s : BackblazeCredentials) (bucketName : String) : String :=
  (b2ApiCall env s "b2_create_bucket" (env.Write (createBucketBody bucketName)) "").1

/-- The transfers `createBucket` performs through `b2ApiCall`. -/
def createBucketCalls (env : Env) (s : BackblazeCredentials) (bucketName : String) :
    List Event :=
  (b2ApiCall env s "b2_create_bucket" (env.Write (createBucketBody bucketName)) "").2

/-- An authenticated session that knows no bucket yet. -/
def noBucketSession : BackblazeCredentials where
  isAuthenticated := true
  authToken := "tok"
  apiUrl := "https://api.example"

/-- A sequence of `setSaveFileThread` calls, one per element of `calls`. -/
def setSaveFileThreads (self : FileSaver) (calls : List Bool) : FileSaver :=
  calls.foldl (fun st set => (st.setSaveFileThread set).1) self

/-- The path `makeLocalCopy` writes to for source `path` at clock reading `n`. -/
def snapshotPath (env : Env) (path : String) (n : Nat) : String :=
  env.join (env.parent_path path)
    (env.stem path ++ "_backup_" ++ put_time (env.localtime n) ++ env.extension path)

/-- The session step of `uploadFile`: `authenticate` runs only when the session is not
authenticated. -/
def authenticateIfNeeded (env : Env) (s : BackblazeCredentials) :
    Except Fault (Bool × BackblazeCredentials × List Event) :=
  if s.isAuthenticated then .ok (true, s, []) else authenticate env s

/-- The transfers `authenticate` performs through `b2ApiCall`. -/
def authorizeCalls (env : Env) (s : BackblazeCredentials) : List Event :=
  (b2ApiCall env s "b2_authorize_account" ""
    ("Basic " ++ base64Encode env (s.accountId ++ ":" ++ s.applicationKey))).2

/-- The transfers `getUploadUrl` performs through `b2ApiCall`. -/
def uploadUrlCalls (env : Env) (s : BackblazeCredentials) : List Event :=
  (b2ApiCall env s "b2_get_upload_url" (env.Write (Json.obj [("bucketId", Json.str s.bucketId)]))
    "").2

/-- The trace of a sequence of `setSaveFileThread` calls. -/
def setSaveFileThreadsEvents (self : FileSaver) : List Bool → List Event
  | [] => []
  | set :: rest =>
    (self.setSaveFileThread set).2 ++ setSaveFileThreadsEvents (self.setSaveFileThread set).1 rest

/-- A `FileSaver` with a target set and a session that is not authenticated. -/
def freshTargetSaver : FileSaver where
  m_isFilePathSet := true
  m_filePath := "/data/notes.txt"
  m_isSaving := true

/-! ## Lemmas on the JSON accessors -/

/-- Every accessor that needs an object faults on a value that is not one. -/
theorem HasMember_of_not_object (v : Json) (name : String) (h : v.IsObject = false) :
    v.HasMember name = .error Fault.assertIsObject := by
  cases v <;> simp [Json.IsObject] at h <;> rfl

/-- A text that does not parse to an object leaves a document value that is not an object. -/
theorem parseDocument_value_not_object (env : Env) (text : String)
    (h : ∀ members, env.Parse text ≠ some (Json.obj members)) :
    (env.parseDocument text).value.IsObject = false := by
  unfold Env.parseDocument
  cases hp : env.Parse text with
  | none => rfl
  | some v =>
    cases v with
    | obj members => exact absurd hp (h members)
    | _ => rfl

/-- On a response that is not empty and does not parse to an object, `authenticate` reaches
`doc.HasMember("code")` before the parse check and violates its precondition. -/
theorem authenticate_not_object (env : Env) (s : BackblazeCredentials)
    (hne : authorizeResponse env s ≠ "")
    (h : ∀ members, env.Parse (authorizeResponse env s) ≠ some (Json.obj members)) :
    authenticate env s = .error Fault.assertIsObject := by
  have hv := parseDocument_value_not_object env _ h
  unfold authorizeResponse at hne hv
  unfold authenticate
  simp only [hne, if_false]
  simp [HasMember_of_not_object _ _ hv, bind, Except.bind]

/-- An empty response makes `authenticate` return false with the session untouched. -/
theorem authenticate_empty_response (env : Env) (s : BackblazeCredentials)
    (h : authorizeResponse env s = "") :
    ∃ t, authenticate env s = .ok (false, s, t) := by
  unfold authorizeResponse at h
  unfold authenticate
  simp only [h, if_true]
  exact ⟨_, rfl⟩

/-- An object with string members `code` and `message` makes `authenticate` return false with
the session untouched. -/
theorem authenticate_error_shaped (env : Env) (s : BackblazeCredentials)
    (members : List (String × Json)) (code message : String)
    (hne : authorizeResponse env s ≠ "")
    (hp : env.Parse (authorizeResponse env s) = some (Json.obj members))
    (hc : List.lookup "code" members = some (Json.str code))
    (hm : List.lookup "message" members = some (Json.str message)) :
    ∃ t, authenticate env s = .ok (false, s, t) := by
  unfold authorizeResponse at hne hp
  unfold authenticate
  simp only [hne, if_false, Env.parseDocument, hp]
  simp [Json.HasMember, Json.memberString, Json.member, Json.GetString, hc, hm, bind,
    Except.bind, pure, Except.pure]

/-! ## Session: `authenticate` -/

/-- C1 (defect): from a fresh session, an authorize call answered with status 200 and the
JSON object `{}` makes `authenticate` return true with `isAuthenticated` set while
`authToken` and `apiUrl` are still empty. -/
theorem authenticate_empty_object_partial_state :
    ∃ s t, authenticate (constEnv "\x7b\x7d" (Json.obj [])) {} = .ok (true, s, t) ∧
      s.isAuthenticated = true ∧ s.authToken = "" ∧ s.apiUrl = "" :=
  ⟨_, _, rfl, rfl, rfl, rfl⟩

/-- C2 (defect): on a response with status 200 whose text is not JSON, and on one that is JSON
but not an object, `authenticate` does not return false: it calls `HasMember` on a value that
is not an object, before the parse check. -/
theorem authenticate_unparseable_faults :
    authenticate (stubEnv [] (fun _ => okReply "<html></html>")) {} =
        .error Fault.assertIsObject ∧
      authenticate (constEnv "[1]" (Json.arr [Json.num 1])) {} = .error Fault.assertIsObject :=
  ⟨rfl, rfl⟩

/-- A returning `getUploadUrl` hands back the session it was given. -/
theorem getUploadUrl_session (env : Env) (s s' : BackblazeCredentials)
    (a : UploadAuthorization) (t : List Event)
    (h : getUploadUrl env s = .ok (a, s', t)) : s' = s := by
  unfold getUploadUrl at h
  simp only [bind, Except.bind, pure, Except.pure] at h
  repeat' split at h
  all_goals first
    | (simp only [Except.ok.injEq, Prod.mk.injEq] at h; exact h.2.1.symm)
    | (exact absurd h (by simp))

/-- C4 (defect): an upload POST answered with HTTP status 500 and a body that is a JSON object
with a `fileId` member makes `uploadFile` return true: the status is never read. -/
theorem uploadFile_ignores_http_status :
    (uploadFile (uploadEnv 500 "\x7b\"fileId\":\"4_z\"\x7d" (Json.obj [("fileId", Json.str "4_z")]))
      readySaver (diskWith "/data/notes.txt" "hello")).map (fun r => r.1) = .ok true :=
  rfl

/-- A `createBucket` that returns true leaves an authenticated session carrying the name. -/
theorem createBucket_true (env : Env) (s s1 : BackblazeCredentials) (name : String)
    (t : List Event) (h : createBucket env s name = .ok (true, s1, t)) :
    s1.isAuthenticated = true ∧ s1.bucketName = name := by
  have ha : s.isAuthenticated = true := by
    cases hs : s.isAuthenticated
    · unfold createBucket at h
      simp [hs] at h
    · rfl
  unfold createBucket at h
  simp only [bind, Except.bind, pure, Except.pure] at h
  repeat' split at h
  all_goals (cases h <;> exact ⟨ha, rfl⟩)

/-- A string member found by `isStringMember` is a `Json.str`. -/
theorem isStringMember_lookup (members : List (String × Json)) (name : String)
    (h : isStringMember members name = true) :
    ∃ v, List.lookup name members = some (Json.str v) := by
  unfold isStringMember stringMember at h
  cases hl : List.lookup name members with
  | none => simp [hl] at h
  | some x => cases x <;> simp [hl] at h; exact ⟨_, rfl⟩

/-- The result of `createBucket` on an object response, for an authenticated session without
bucket. -/
theorem createBucket_obj (env : Env) (s : BackblazeCredentials) (name : String)
    (members : List (String × Json))
    (hauth : s.isAuthenticated = true) (hbucket : s.bucketId = "")
    (hne : createBucketResponse env s name ≠ "")
    (hp : env.Parse (createBucketResponse env s name) = some (Json.obj members))
    (htyped : (List.lookup "error" members).isSome = false →
      (List.lookup "bucketId" members).isSome = true → isStringMember members "bucketId" = true) :
    createBucket env s name = .ok
      (if (List.lookup "error" members).isSome = true then (false, s, createBucketCalls env s name)
       else
        match stringMember members "bucketId" with
        | some id => (true, { s with bucketId := id, bucketName := name },
            createBucketCalls env s name)
        | none => (false, s, createBucketCalls env s name)) := by
  unfold createBucketResponse createBucketBody at hne hp
  unfold createBucket createBucketCalls createBucketBody
  simp only [hauth, hbucket, hne, Env.parseDocument, hp]
  cases he : (List.lookup "error" members).isSome with
  | true =>
    simp [Json.IsObject, Json.HasMember, he, bind, Except.bind, pure, Except.pure]
  | false =>
    cases hb : (List.lookup "bucketId" members).isSome with
    | true =>
      obtain ⟨id, hid⟩ := isStringMember_lookup _ _ (htyped he hb)
      simp [Json.IsObject, Json.HasMember, Json.memberString, Json.member, Json.GetString, he,
        hb, hid, stringMember, bind, Except.bind, pure, Except.pure]
    | false =>
      have hnone : List.lookup "bucketId" members = none := by
        cases hl : List.lookup "bucketId" members with
        | none => rfl
        | some x => simp [hl] at hb
      simp [Json.IsObject, Json.HasMember, he, hb, hnone, stringMember, bind, Except.bind,
        pure, Except.pure]

/-- The result of `createBucket` on an empty response or one that is not an object. -/
theorem createBucket_not_obj (env : Env) (s : BackblazeCredentials) (name : String)
    (hauth : s.isAuthenticated = true) (hbucket : s.bucketId = "")
    (h : createBucketResponse env s name = "" ∨
      ∀ members, env.Parse (createBucketResponse env s name) ≠ some (Json.obj members)) :
    createBucket env s name = .ok (false, s, createBucketCalls env s name) := by
  unfold createBucketResponse createBucketBody at h
  unfold createBucket createBucketCalls createBucketBody
  by_cases hr : (b2ApiCall env s "b2_create_bucket"
      (env.Write (Json.obj [("bucketName", Json.str name), ("bucketType", Json.str "allPrivate")]))
      "").1 = ""
  · simp [hauth, hbucket, hr]
  · rcases h with h | h
    · exact absurd h hr
    · simp only [hauth, hbucket, hr, Env.parseDocument]
      cases hp : env.Parse (b2ApiCall env s "b2_create_bucket"
        (env.Write (Json.obj [("bucketName", Json.str name),
          ("bucketType", Json.str "allPrivate")])) "").1 with
      | none => simp [bind, Except.bind, pure, Except.pure]
      | some v =>
        cases v with
        | obj members => exact absurd hp (h members)
        | _ => simp [Json.IsObject, bind, Except.bind, pure, Except.pure]

/-- C6 (as stated, refuted): a create-bucket call answered with an object whose `bucketId` is the
empty string makes `createBucket` return true and leaves `bucketId` empty, so a second
`createBucket` with the same name performs a service call again. -/
theorem createBucket_empty_id_repeats_call :
    ∃ s1 t1 t2,
      createBucket (constEnv "\x7b\"bucketId\":\"\"\x7d" (Json.obj [("bucketId", Json.str "")]))
        noBucketSession "biz" = .ok (true, s1, t1) ∧
      createBucket (constEnv "\x7b\"bucketId\":\"\"\x7d" (Json.obj [("bucketId", Json.str "")]))
        s1 "biz" = .ok (true, s1, t2) ∧ t2 ≠ [] :=
  ⟨_, _, _, rfl, rfl, by decide⟩

/-- C6 (amended): for an authenticated session whose `bucketId` is not empty, `createBucket`
returns true, performs no transfer, keeps `bucketId` and stores the name; and after any
`createBucket` that returned true and left a non-empty `bucketId`, a second `createBucket` with
the same name returns true, performs no transfer and leaves the session as it is. -/
theorem createBucket_existing_bucket (env env' : Env) (s : BackblazeCredentials) (name : String) :
    (s.isAuthenticated = true → s.bucketId ≠ "" →
      createBucket env s name = .ok (true, { s with bucketName := name }, [])) ∧
    (∀ s1 t, createBucket env s name = .ok (true, s1, t) → s1.bucketId ≠ "" →
      createBucket env' s1 name = .ok (true, s1, [])) := by
  constructor
  · intro ha hb
    unfold createBucket
    simp [ha, hb]
  · intro s1 t h hb
    obtain ⟨ha, hn⟩ := createBucket_true env s s1 name t h
    subst hn
    unfold createBucket
    simp [ha, hb]
    cases s1
    simp_all

/-- Scenario 3 of the specification as an instance of the short-circuit theorem: with
`bucketId` already `b1` no transfer is made, and a repetition changes nothing. -/
theorem createBucket_existing_bucket_witness :
    createBucket scenario1Env readySession "biz" =
        .ok (true, { readySession with bucketName := "biz" }, []) ∧
      createBucket scenario1Env { readySession with bucketName := "biz" } "biz" =
        .ok (true, { readySession with bucketName := "biz" }, []) :=
  ⟨(createBucket_existing_bucket scenario1Env scenario1Env readySession "biz").1 rfl (by decide),
   (createBucket_existing_bucket scenario1Env scenario1Env readySession "biz").2 _ [] rfl
     (by decide)⟩

/-- C7 (as stated, refuted): the body of the create-bucket request carries the bucket type
`allPrivate`, not `private`. -/
theorem createBucket_sends_allPrivate :
    ∃ r s t, createBucket scenario1Env noBucketSession "biz" = .ok (r, s, t) ∧
      t = [Event.call
        { url := "https://api.example/b2api/v2/b2_create_bucket",
          headers := ["Authorization: tok", "Content-Type: application/json"],
          post := some "\x7b\"bucketName\":\"biz\",\"bucketType\":\"allPrivate\"\x7d" }] ∧
      t ≠ [Event.call
        { url := "https://api.example/b2api/v2/b2_create_bucket",
          headers := ["Authorization: tok", "Content-Type: application/json"],
          post := some "\x7b\"bucketName\":\"biz\",\"bucketType\":\"private\"\x7d" }] :=
  ⟨_, _, _, rfl, rfl, by decide⟩

/-- C7 (amended): with an empty `bucketId`, an unauthenticated `createBucket` returns false
without any transfer and leaves the session as it is; an authenticated one with a valid handle
sends one POST to `b2_create_bucket` whose body is the document with `bucketName` equal to the
name and `bucketType` equal to `allPrivate`; it returns true and stores the returned id and the
name when the response is an object without member `error` and with a string `bucketId`; it
returns false and leaves the session as it is when the response is empty, is not an object,
has a member `error`, or has no `bucketId`. -/
theorem createBucket_empty_bucketId (env : Env) (s : BackblazeCredentials) (name : String)
    (hbucket : s.bucketId = "") :
    (s.isAuthenticated = false → createBucket env s name = .ok (false, s, [])) ∧
    (s.isAuthenticated = true → s.curl = true → env.Write (createBucketBody name) ≠ "" →
      createBucketCalls env s name = [Event.call
        { url := if s.apiUrl = "" then "https://api.backblazeb2.com/b2api/v2/b2_create_bucket"
            else s.apiUrl ++ "/b2api/v2/" ++ "b2_create_bucket",
          headers := ["Authorization: " ++ s.authToken, "Content-Type: application/json"],
          post := some (env.Write (Json.obj
            [("bucketName", Json.str name), ("bucketType", Json.str "allPrivate")])) }]) ∧
    (s.isAuthenticated = true →
      (∀ members id, createBucketResponse env s name ≠ "" →
        env.Parse (createBucketResponse env s name) = some (Json.obj members) →
        (List.lookup "error" members).isSome = false →
        List.lookup "bucketId" members = some (Json.str id) →
        createBucket env s name =
          .ok (true, { s with bucketId := id, bucketName := name },
            createBucketCalls env s name)) ∧
      ((createBucketResponse env s name = "" ∨
          (∀ members, env.Parse (createBucketResponse env s name) ≠ some (Json.obj members)) ∨
          (∃ members, env.Parse (createBucketResponse env s name) = some (Json.obj members) ∧
            ((List.lookup "error" members).isSome = true ∨
              (List.lookup "bucketId" members).isSome = false))) →
        createBucket env s name = .ok (false, s, createBucketCalls env s name))) := by
  refine ⟨?_, ?_, ?_⟩
  · intro ha
    unfold createBucket
    simp [ha]
  · intro _ hc hw
    unfold createBucketCalls b2ApiCall
    unfold createBucketBody at hw ⊢
    by_cases hu : s.apiUrl = "" <;> simp [hc, hw, hu]
    all_goals split_ifs <;> rfl
  · intro ha
    constructor
    · intro members id hne hp he hid
      rw [createBucket_obj env s name members ha hbucket hne hp
        (fun _ _ => by simp [isStringMember, stringMember, hid])]
      simp [he, stringMember, hid]
    · rintro (h | h | ⟨members, hp, h⟩)
      · exact createBucket_not_obj env s name ha hbucket (Or.inl h)
      · exact createBucket_not_obj env s name ha hbucket (Or.inr h)
      · by_cases hne : createBucketResponse env s name = ""
        · exact createBucket_not_obj env s name ha hbucket (Or.inl hne)
        · rcases h with h | h
          · rw [createBucket_obj env s name members ha hbucket hne hp
              (fun he _ => by rw [h] at he; exact absurd he (by decide))]
            simp [h]
          · rw [createBucket_obj env s name members ha hbucket hne hp
              (fun _ hb => by rw [h] at hb; exact absurd hb (by decide))]
            have hnone : stringMember members "bucketId" = none := by
              unfold stringMember
              cases hl : List.lookup "bucketId" members with
              | none => rfl
              | some x => simp [hl] at h
            simp [hnone]

/-- An instance of the create-bucket theorem: the service answers with the id `b9`, which is
stored together with the name. -/
theorem createBucket_empty_bucketId_witness :
    createBucket (constEnv "\x7b\"bucketId\":\"b9\"\x7d" (Json.obj [("bucketId", Json.str "b9")]))
        noBucketSession "biz" =
      .ok (true, { noBucketSession with bucketId := "b9", bucketName := "biz" },
        [Event.call
          { url := "https://api.example/b2api/v2/b2_create_bucket",
            headers := ["Authorization: tok", "Content-Type: application/json"],
            post := some "\x7b\"bucketName\":\"biz\",\"bucketType\":\"allPrivate\"\x7d" }]) :=
  ((createBucket_empty_bucketId
    (constEnv "\x7b\"bucketId\":\"b9\"\x7d" (Json.obj [("bucketId", Json.str "b9")]))
    noBucketSession "biz" rfl).2.2 rfl).1 [("bucketId", Json.str "b9")] "b9" (by decide) rfl rfl
    rfl

/-! ## Upload authorization: `getUploadUrl` -/

/-- C9 (defect): a pass of the loop that finds no target set appends the line "File path not
set", performs no transfer and no sleep; two consecutive evaluations of the loop condition are
separated by no sleep at all. -/
theorem saveFile_unset_target_no_sleep (env : Env) (self : FileSaver) (w : World) :
    saveFileStep env { self with m_isFilePathSet := false } w =
        .ok ({ self with m_isFilePathSet := false,
                         m_logger := self.m_logger ++ "File path not set\n" }, w, []) ∧
      saveFile env 2 { self with m_isFilePathSet := false, m_isSaving := true } w =
        .ok ({ self with m_isFilePathSet := false, m_isSaving := true,
                         m_logger := self.m_logger ++ "File path not set\n" ++
                           "File path not set\n" }, w, [Event.check, Event.check]) := by
  constructor
  · rfl
  · rfl

/-- After `setSaveFileThread(set)` the flag `m_isSaving` equals `set`. -/
theorem setSaveFileThread_flag (self : FileSaver) (set : Bool) :
    (self.setSaveFileThread set).1.m_isSaving = set := by
  unfold setSaveFileThread
  cases set <;> cases h : self.m_isSaving <;> simp [h]

/-- A sequence of calls followed by one more call. -/
theorem setSaveFileThreads_append (self : FileSaver) (calls : List Bool) (set : Bool) :
    setSaveFileThreads self (calls ++ [set]) =
      ((setSaveFileThreads self calls).setSaveFileThread set).1 := by
  simp [setSaveFileThreads, List.foldl_append]

/-- C10: the scheduler is a two-state machine over `m_isSaving`, initially false: a start from
Idle sets the flag and creates (and detaches) exactly one thread; a stop from Running clears the
flag and creates none; a start while Running and a stop while Idle change nothing and perform
nothing; after any non-empty sequence of calls the flag equals the argument of the last call. -/
theorem setSaveFileThread_machine :
    ({} : FileSaver).m_isSaving = false ∧
    (∀ self : FileSaver, self.m_isSaving = false →
      self.setSaveFileThread true =
        ({ self with m_isSaving := true, m_fileSaver := some { joinable := false } },
          [Event.spawn, Event.detach])) ∧
    (∀ self : FileSaver, self.m_isSaving = true →
      (self.setSaveFileThread false).1.m_isSaving = false ∧
        List.count Event.spawn (self.setSaveFileThread false).2 = 0) ∧
    (∀ self : FileSaver, self.m_isSaving = true → self.setSaveFileThread true = (self, [])) ∧
    (∀ self : FileSaver, self.m_isSaving = false → self.setSaveFileThread false = (self, [])) ∧
    (∀ (self : FileSaver) (calls : List Bool) (set : Bool),
      (setSaveFileThreads self (calls ++ [set])).m_isSaving = set) := by
  refine ⟨rfl, ?_, ?_, ?_, ?_, ?_⟩
  · intro self h
    simp [setSaveFileThread, h]
  · intro self h
    constructor
    · simp [setSaveFileThread, h]
    · unfold setSaveFileThread
      simp [h]
      split <;> simp
  · intro self h
    simp [setSaveFileThread, h]
  · intro self h
    simp [setSaveFileThread, h]
  · intro self calls set
    rw [setSaveFileThreads_append]
    exact setSaveFileThread_flag _ set

/-- An instance of the state-machine theorem on the freshly constructed object. -/
theorem setSaveFileThread_machine_witness :
    ({} : FileSaver).setSaveFileThread true =
        ({ m_isSaving := true, m_fileSaver := some { joinable := false } },
          [Event.spawn, Event.detach]) ∧
      (setSaveFileThreads {} ([true, false] ++ [true])).m_isSaving = true :=
  ⟨setSaveFileThread_machine.2.1 {} rfl, setSaveFileThread_machine.2.2.2.2.2 {} [true, false] true⟩

/-- C11 (defect): from every Idle state, the stop that follows a start performs no `join`: the
thread was detached when it was created, so it is not joinable; a start, a stop and a start
create two threads and wait for none. -/
theorem stop_after_start_performs_no_join (self : FileSaver) :
    (({ self with m_isSaving := false }.setSaveFileThread true).1.setSaveFileThread false).2 = [] ∧
      setSaveFileThreadsEvents { self with m_isSaving := false } [true, false, true] =
        [Event.spawn, Event.detach, Event.spawn, Event.detach] :=
  ⟨rfl, rfl⟩

/-! ## The log -/

/-- A returning `makeLocalCopy` changes the object by one log line, which names the snapshot
path. -/
theorem makeLocalCopy_object (env : Env) (self self' : FileSaver) (w w' : World)
    (h : makeLocalCopy env self w = .ok (self', w')) :
    self' = { self with
      m_logger := self.m_logger ++
        ("Local copy created: " ++ snapshotPath env self.m_filePath w.clock ++ "\n") } := by
  unfold makeLocalCopy at h
  split at h
  · exact absurd h (by simp)
  · exact absurd h (by simp)
  · simp only at h
    split at h
    · exact absurd h (by simp)
    · cases h
      rfl

/-- A returning `makeLocalCopy` extends the log. -/
theorem makeLocalCopy_log (env : Env) (self self' : FileSaver) (w w' : World)
    (h : makeLocalCopy env self w = .ok (self', w')) :
    ∃ suffix, self'.m_logger = self.m_logger ++ suffix := by
  rw [makeLocalCopy_object env self self' w w' h]
  exact ⟨_, rfl⟩

/-- A returning `uploadFile` extends the log. -/
theorem uploadFile_log (env : Env) (self self' : FileSaver) (w w' : World) (b : Bool)
    (t : List Event) (h : uploadFile env self w = .ok (b, self', w', t)) :
    ∃ suffix, self'.m_logger = self.m_logger ++ suffix := by
  unfold uploadFile at h
  simp only [bind, Except.bind, pure, Except.pure] at h
  repeat' split at h
  all_goals (cases h <;> exact ⟨_, rfl⟩)

/-- A returning pass of the loop body extends the log. -/
theorem saveFileStep_log (env : Env) (self self' : FileSaver) (w w' : World)
    (t : List Event) (h : saveFileStep env self w = .ok (self', w', t)) :
    ∃ suffix, self'.m_logger = self.m_logger ++ suffix := by
  unfold saveFileStep at h
  split at h
  · cases h
    exact ⟨_, rfl⟩
  · split at h
    · cases h
      exact ⟨_, rfl⟩
    · rename_i self1 w1 hcopy
      obtain ⟨a, ha⟩ := makeLocalCopy_log env self self1 w w1 hcopy
      split at h
      · exact absurd h (by simp)
      · rename_i self2 w2 t2 hup
        obtain ⟨c, hc⟩ := uploadFile_log env self1 self2 w1 w2 true t2 hup
        cases h
        exact ⟨a ++ c ++ "Backup completed successfully\n", by
          simp [hc, ha, String.append_assoc]⟩
      · rename_i self2 w2 t2 hup
        obtain ⟨c, hc⟩ := uploadFile_log env self1 self2 w1 w2 false t2 hup
        cases h
        exact ⟨a ++ c ++ "Backup failed\n", by simp [hc, ha, String.append_assoc]⟩

/-- A returning run of the loop extends the log. -/
theorem saveFile_log (env : Env) (fuel : Nat) : ∀ (self self' : FileSaver) (w w' : World)
    (t : List Event), saveFile env fuel self w = .ok (self', w', t) →
    ∃ suffix, self'.m_logger = self.m_logger ++ suffix := by
  induction fuel with
  | zero =>
    intro self self' w w' t h
    unfold saveFile at h
    cases h
    exact ⟨"", by simp⟩
  | succ n ih =>
    intro self self' w w' t h
    unfold saveFile at h
    split at h
    · cases h
      exact ⟨"", by simp⟩
    · split at h
      · exact absurd h (by simp)
      · rename_i self1 w1 t1 hstep
        obtain ⟨a, ha⟩ := saveFileStep_log env self self1 w w1 t1 hstep
        split at h
        · exact absurd h (by simp)
        · rename_i self2 w2 t2 hrest
          obtain ⟨c, hc⟩ := ih self1 self2 w1 w2 t2 hrest
          cases h
          exact ⟨a ++ c, by simp [hc, ha, String.append_assoc]⟩

/-- C12: the log is append-only. Whenever `makeLocalCopy`, `uploadFile`, one pass of the loop
body of `saveFile`, or a run of the loop returns, in whichever branch, the log before the
operation is a prefix of the log after it. -/
theorem log_append_only (env : Env) (self : FileSaver) (w : World) :
    (∀ self1 w1, makeLocalCopy env self w = .ok (self1, w1) →
      ∃ suffix, self1.m_logger = self.m_logger ++ suffix) ∧
    (∀ b self1 w1 t, uploadFile env self w = .ok (b, self1, w1, t) →
      ∃ suffix, self1.m_logger = self.m_logger ++ suffix) ∧
    (∀ self1 w1 t, saveFileStep env self w = .ok (self1, w1, t) →
      ∃ suffix, self1.m_logger = self.m_logger ++ suffix) ∧
    (∀ fuel self1 w1 t, saveFile env fuel self w = .ok (self1, w1, t) →
      ∃ suffix, self1.m_logger = self.m_logger ++ suffix) :=
  ⟨fun self1 w1 h => makeLocalCopy_log env self self1 w w1 h,
   fun b self1 w1 t h => uploadFile_log env self self1 w w1 b t h,
   fun self1 w1 t h => saveFileStep_log env self self1 w w1 t h,
   fun fuel self1 w1 t h => saveFile_log env fuel self self1 w w1 t h⟩

/-- An instance of the append-only theorem: a tick whose upload is refused keeps the earlier
log text in front of the new lines. -/
theorem log_append_only_witness :
    ∃ self1 w1 t suffix,
      saveFileStep scenario1Env
          { readySaver with m_b2Credentials := noBucketSession,
                            m_logger := "Backup process started\n" }
          (diskWith "/data/notes.txt" "hello") = .ok (self1, w1, t) ∧
        self1.m_logger = "Backup process started\n" ++ suffix := by
  have h : ∃ r, saveFileStep scenario1Env
      { readySaver with m_b2Credentials := noBucketSession,
                        m_logger := "Backup process started\n" }
      (diskWith "/data/notes.txt" "hello") = .ok r := ⟨_, rfl⟩
  obtain ⟨⟨self1, w1, t⟩, h⟩ := h
  obtain ⟨suffix, hs⟩ := (log_append_only scenario1Env _ _).2.2.1 self1 w1 t h
  exact ⟨self1, w1, t, suffix, h, hs⟩

/-! ## Snapshot: `makeLocalCopy` -/

/-- A returning `authenticate` performed exactly the transfers of its service call. -/
theorem authenticate_calls (env : Env) (s s' : BackblazeCredentials) (b : Bool)
    (t : List Event) (h : authenticate env s = .ok (b, s', t)) : t = authorizeCalls env s := by
  unfold authenticate at h
  simp only [bind, Except.bind, pure, Except.pure] at h
  repeat' split at h
  all_goals (cases h <;> rfl)

/-- A `getUploadUrl` that yields a non-empty field performed the transfers of its service
call. -/
theorem getUploadUrl_calls (env : Env) (s s' : BackblazeCredentials) (a : UploadAuthorization)
    (t : List Event) (h : getUploadUrl env s = .ok (a, s', t))
    (hne : a.uploadUrl ≠ "" ∨ a.authorizationToken ≠ "") : t = uploadUrlCalls env s := by
  unfold getUploadUrl at h
  simp only [bind, Except.bind, pure, Except.pure] at h
  repeat' split at h
  all_goals (cases h <;> first | rfl | simp at hne)

/-- C14 (as stated, refuted): for an authenticated session whose `bucketId` is empty,
`uploadFile` returns false with the line "No bucket available" and performs no transfer at all,
although a `createBucket` on that session would send a request: the bucket is never
provisioned. -/
theorem uploadFile_no_provisioning :
    uploadFile scenario1Env { readySaver with m_b2Credentials := noBucketSession }
        (diskWith "/data/notes.txt" "hello") =
      .ok (false,
        { readySaver with m_b2Credentials := noBucketSession,
                          m_logger := "No bucket available\n" },
        diskWith "/data/notes.txt" "hello", []) ∧
      createBucketCalls scenario1Env noBucketSession "biz" ≠ [] :=
  ⟨rfl, by decide⟩

/-- C14 (amended): once the session step of `uploadFile` has succeeded (no call when already
authenticated, else the authorize call), an empty `bucketId` ends the upload with the line
"No bucket available" and no further transfer; with a `bucketId`, a non-empty upload
authorization, a curl handle and the source file, the transfers are those of the session step,
then the get-upload-url call, then the upload, in that order. -/
theorem uploadFile_step_order (env : Env) (self : FileSaver) (w : World)
    (c1 : BackblazeCredentials) (t1 : List Event)
    (hA : authenticateIfNeeded env self.m_b2Credentials = .ok (true, c1, t1)) :
    (self.m_b2Credentials.isAuthenticated = true → t1 = []) ∧
    (self.m_b2Credentials.isAuthenticated = false →
      t1 = authorizeCalls env self.m_b2Credentials) ∧
    (c1.bucketId = "" →
      uploadFile env self w = .ok (false,
        { self with m_b2Credentials := c1,
                    m_logger := self.m_logger ++ "No bucket available\n" }, w, t1)) ∧
    (∀ auth c2 t2 content, c1.bucketId ≠ "" → getUploadUrl env c1 = .ok (auth, c2, t2) →
      auth.uploadUrl ≠ "" → auth.authorizationToken ≠ "" → env.curl_easy_init = true →
      w.files self.m_filePath = some content →
      t2 = uploadUrlCalls env c1 ∧
      ∃ b self', uploadFile env self w = .ok (b, self', { w with clock := w.clock + 1 },
        t1 ++ t2 ++ [Event.call (uploadRequest auth (remoteName env self.m_filePath w.clock)
          (calculateFileSha1 env w self.m_filePath) content.utf8ByteSize content)])) := by
  have hpre : (do
      if (!self.m_b2Credentials.isAuthenticated) = true then
        let (ok, c, t) ← self.m_b2Credentials.authenticate env
        pure (ok, c, t)
      else pure (true, self.m_b2Credentials, []) :
        Except Fault (Bool × BackblazeCredentials × List Event)) = .ok (true, c1, t1) := by
    unfold authenticateIfNeeded at hA
    cases ha : self.m_b2Credentials.isAuthenticated
    · simp only [ha, Bool.false_eq_true, if_false] at hA
      simp [hA, bind, Except.bind, pure, Except.pure]
    · simp only [ha, if_true] at hA
      simpa [pure, Except.pure] using hA
  refine ⟨?_, ?_, ?_, ?_⟩
  · intro ha
    unfold authenticateIfNeeded at hA
    simp only [ha, if_true] at hA
    cases hA
    rfl
  · intro ha
    unfold authenticateIfNeeded at hA
    simp only [ha] at hA
    exact authenticate_calls _ _ _ _ _ hA
  · intro hb
    unfold uploadFile
    simp only [bind, Except.bind, pure, Except.pure] at hpre ⊢
    rw [hpre]
    simp [hb]
  · intro auth c2 t2 content hb hget hu hk hinit hfile
    have hc : c2 = c1 := getUploadUrl_session _ _ _ _ _ hget
    subst hc
    refine ⟨getUploadUrl_calls _ _ _ _ _ hget (Or.inl hu), ?_⟩
    unfold uploadFile
    simp only [bind, Except.bind, pure, Except.pure] at hpre ⊢
    rw [hpre]
    simp only [remoteName]
    obtain ⟨reply, hr⟩ : ∃ reply, env.curl_easy_perform (uploadRequest auth
        (put_time (env.localtime w.clock) ++ "_" ++ env.filename self.m_filePath)
        (calculateFileSha1 env w self.m_filePath) content.utf8ByteSize content) = reply :=
      ⟨_, rfl⟩
    by_cases hres : reply.res = CURLE_OK
    · cases hp : env.Parse reply.response with
      | none =>
        simp [hb, hinit, hfile, hget, hu, hk, hr, hres, Env.parseDocument, hp]
      | some v =>
        cases v with
        | obj members =>
          cases hl : (List.lookup "fileId" members).isSome <;>
          simp [hb, hinit, hfile, hget, hu, hk, hr, hres, Env.parseDocument, hp, Json.IsObject,
            Json.HasMember, hl]
        | _ =>
          simp [hb, hinit, hfile, hget, hu, hk, hr, hres, Env.parseDocument, hp, Json.IsObject,
            Json.HasMember]
    · simp [hb, hinit, hfile, hget, hu, hk, hr, hres]

/-- An instance of the step-order theorem: an authenticated session with a bucket sends the
get-upload-url call and then the upload. -/
theorem uploadFile_step_order_witness :
    ∃ b self', uploadFile (uploadEnv 200 "" Json.null) readySaver
        (diskWith "/data/notes.txt" "hello") =
      .ok (b, self', { diskWith "/data/notes.txt" "hello" with clock := 1 },
        [] ++ uploadUrlCalls (uploadEnv 200 "" Json.null) readySession ++
          [Event.call (uploadRequest
            { uploadUrl := "https://pod.example/upload", authorizationToken := "up-tok" }
            "20240102_030405_notes.txt" "da39a3ee" 5 "hello")]) :=
  ((uploadFile_step_order (uploadEnv 200 "" Json.null) readySaver
    (diskWith "/data/notes.txt" "hello") readySession [] rfl).2.2.2
    { uploadUrl := "https://pod.example/upload", authorizationToken := "up-tok" } readySession
    (uploadUrlCalls (uploadEnv 200 "" Json.null) readySession) "hello" (by decide) rfl
    (by decide) (by decide) rfl rfl).2

/-! ## Failures inside one pass of the loop -/

/-- A returning `makeLocalCopy` leaves `m_isSaving` as it is. -/
theorem makeLocalCopy_flag (env : Env) (self self' : FileSaver) (w w' : World)
    (h : makeLocalCopy env self w = .ok (self', w')) : self'.m_isSaving = self.m_isSaving := by
  rw [makeLocalCopy_object env self self' w w' h]

/-- A returning `uploadFile` leaves `m_isSaving` as it is. -/
theorem uploadFile_flag (env : Env) (self self' : FileSaver) (w w' : World) (b : Bool)
    (t : List Event) (h : uploadFile env self w = .ok (b, self', w', t)) :
    self'.m_isSaving = self.m_isSaving := by
  unfold uploadFile at h
  simp only [bind, Except.bind, pure, Except.pure] at h
  repeat' split at h
  all_goals (cases h <;> rfl)

/-- With a target set: an exception thrown by `makeLocalCopy` is logged as "Error: " followed
by its message and the pass goes on to the sleep without any transfer; an upload that returns
false is logged as "Backup failed" before the sleep; and a returning pass never changes
`m_isSaving`. -/
theorem saveFileStep_absorbed (env : Env) (self : FileSaver) (w : World)
    (hset : self.m_isFilePathSet = true) :
    (∀ what w1, makeLocalCopy env self w = .error (what, w1) →
      saveFileStep env self w = .ok
        ({ self with m_logger := self.m_logger ++ ("Error: " ++ what ++ "\n") },
          w1, [Event.sleep (self.m_saveInterval * 1000)])) ∧
    (∀ self1 w1 self2 w2 t, makeLocalCopy env self w = .ok (self1, w1) →
      uploadFile env self1 w1 = .ok (false, self2, w2, t) →
      saveFileStep env self w = .ok
        ({ self2 with m_logger := self2.m_logger ++ "Backup failed\n" }, w2,
          t ++ [Event.sleep (self2.m_saveInterval * 1000)])) ∧
    (∀ self' w' t, saveFileStep env self w = .ok (self', w', t) →
      self'.m_isSaving = self.m_isSaving) := by
  refine ⟨?_, ?_, ?_⟩
  · intro what w1 h
    unfold saveFileStep
    simp [hset, h]
  · intro self1 w1 self2 w2 t hcopy hup
    unfold saveFileStep
    simp [hset, hcopy, hup]
  · intro self' w' t h
    unfold saveFileStep at h
    split at h
    · cases h
      rfl
    · split at h
      · cases h
        rfl
      · rename_i self1 w1 hcopy
        have h1 := makeLocalCopy_flag env self self1 w w1 hcopy
        split at h
        · exact absurd h (by simp)
        · rename_i self2 w2 t2 hup
          have h2 := uploadFile_flag env self1 self2 w1 w2 true t2 hup
          cases h
          exact h2.trans h1
        · rename_i self2 w2 t2 hup
          have h2 := uploadFile_flag env self1 self2 w1 w2 false t2 hup
          cases h
          exact h2.trans h1

/-- C15 (defect): a pass of the loop whose session is not authenticated and whose authorize
call is answered with JSON that is not an object does not complete: the precondition violated
inside `authenticate` is not an exception, the `catch` does not see it, and the loop ends
without a stop. -/
theorem saveFile_rapidjson_fault_ends_loop :
    saveFileStep (constEnv "[1]" (Json.arr [Json.num 1])) freshTargetSaver
        (diskWith "/data/notes.txt" "hello") = .error Fault.assertIsObject ∧
      saveFile (constEnv "[1]" (Json.arr [Json.num 1])) 5 freshTargetSaver
        (diskWith "/data/notes.txt" "hello") = .error Fault.assertIsObject :=
  ⟨rfl, rfl⟩

end FileSaverModel
